import Mathlib

/-!
Marker sizing and flow curves of `js/map.js`.

A shallow embedding of the pure parts of `js/map.js`: the marker size
calculator `getMarkerSize` and the flow-curve code of `createCurvedArrow`
and `createBezierCurve`.

Numbers.  JavaScript numbers are IEEE doubles.  Here a finite number is an
element of an arbitrary linearly ordered field `K` with exact arithmetic
(`ℚ` for evaluation, `ℝ` where a true square root is wanted), so rounding
and overflow are idealised away.  The values a division by zero produces
are kept: `JSNum K` adds `NaN` and the two infinities to `K`, with the
IEEE rules for them.  `Math.sqrt` is a library function; on finite
non-negative arguments it is a parameter `sqrt : K → K` of the embedding.
-/

namespace AIMap

/-! ## Site records and `getMarkerSize` -/

/-- A site record, reduced to the properties `getMarkerSize` and the filter
of `loadData` read.  An optional property that is missing on the object
(`undefined` when read) is `none`. -/
structure Site (K : Type) where
  category : String
  subcategory : Option String
  country : String
  environmental_impact_score : Option K
  workforce_size : Option K
  avg_wage_usd_monthly : Option K

section MarkerSize

variable {K : Type} [LinearOrderedField K]

/-- The JavaScript expression `v || d` for a numeric property `v` and a
number `d`: `v` when `v` is truthy, `d` otherwise.  `undefined` and `0` are
falsy, every other finite number is truthy. -/
def orElse (v : Option K) (d : K) : K :=
  match v with
  | none => d
  | some x => if x = 0 then d else x

/-- The array of line 136, `['nickel', 'lithium', 'rare_earth', 'cobalt']`. -/
def bonusMaterials : List String := ["nickel", "lithium", "rare_earth", "cobalt"]

/-- `bonusMaterials.includes(site.subcategory)`: strict equality with one of
the four strings; `undefined` equals none of them. -/
def includesSubcategory (sub : Option String) : Bool :=
  match sub with
  | none => false
  | some s => bonusMaterials.contains s

/-- The function `getMarkerSize` of `map.js` (lines 129-160): a `switch` on
`site.category`, compared in source order with strict equality.  The tests
`if (site.workforce_size)` and `if (site.avg_wage_usd_monthly)` are
truthiness tests: they fail for `undefined` and for `0`. -/
def getMarkerSize (site : Site K) : K :=
  let baseSize : K := 8
  if site.category = "mineral_extraction" then
    let envScore := orElse site.environmental_impact_score 5
    let materialBonus : K := if includesSubcategory site.subcategory then 3 else 0
    baseSize + (envScore * 1.5) + materialBonus
  else if site.category = "digital_labor" then
    match site.workforce_size with
    | some w => if w ≠ 0 then baseSize + min (w / 20000) 8 else baseSize + 3
    | none => baseSize + 3
  else if site.category = "ai_research" then
    match site.avg_wage_usd_monthly with
    | some w => if w ≠ 0 then baseSize + min (w / 2000) 10 else baseSize + 6
    | none => baseSize + 6
  else if site.category = "data_centers" then
    baseSize + 5
  else
    baseSize

/-- The material bonus in the words of the specification: 3 if the
subcategory is one of nickel, lithium, rare_earth, cobalt, else 0. -/
def materialBonusSpec (sub : Option String) : K :=
  if sub = some "nickel" ∨ sub = some "lithium" ∨ sub = some "rare_earth" ∨ sub = some "cobalt"
  then 3 else 0

end MarkerSize

/-! ## JavaScript numbers with `NaN` and the infinities -/

/-- A JavaScript number: a finite value, `NaN`, or an infinity (`inf false`
is `Infinity`, `inf true` is `-Infinity`).  Signed zeros are not
distinguished: a zero divisor counts as `+0`, which is what
`Math.sqrt(dx*dx + dy*dy)`, the only divisor of the program that can vanish,
yields. -/
inductive JSNum (K : Type) where
  | fin (x : K)
  | nan
  | inf (negative : Bool)
  deriving DecidableEq

namespace JSNum

variable {K : Type} [LinearOrderedField K]

/-- Unary minus. -/
def neg : JSNum K → JSNum K
  | fin x => fin (-x)
  | nan => nan
  | inf s => inf (!s)

/-- Addition: `NaN` is absorbing and `Infinity + -Infinity` is `NaN`. -/
def add : JSNum K → JSNum K → JSNum K
  | fin x, fin y => fin (x + y)
  | fin _, inf s => inf s
  | inf s, fin _ => inf s
  | inf s, inf r => if s = r then inf s else nan
  | nan, _ => nan
  | _, nan => nan

/-- Subtraction, `a - b = a + (-b)`. -/
def sub (a b : JSNum K) : JSNum K := add a (neg b)

/-- Multiplication: `NaN` is absorbing and `0 * Infinity` is `NaN`. -/
def mul : JSNum K → JSNum K → JSNum K
  | fin x, fin y => fin (x * y)
  | fin x, inf s => if x = 0 then nan else inf (xor (decide (x < 0)) s)
  | inf s, fin y => if y = 0 then nan else inf (xor s (decide (y < 0)))
  | inf s, inf r => inf (xor s r)
  | nan, _ => nan
  | _, nan => nan

/-- Division: `0 / 0` and `Infinity / Infinity` are `NaN`, a non-zero
number over zero is an infinity with the sign of the numerator. -/
def div : JSNum K → JSNum K → JSNum K
  | fin x, fin y =>
      if y = 0 then (if x = 0 then nan else inf (decide (x < 0))) else fin (x / y)
  | fin _, inf _ => fin 0
  | inf s, fin y => inf (xor s (decide (y < 0)))
  | inf _, inf _ => nan
  | nan, _ => nan
  | _, nan => nan

instance : Neg (JSNum K) := ⟨neg⟩
instance : Add (JSNum K) := ⟨add⟩
instance : Sub (JSNum K) := ⟨sub⟩
instance : Mul (JSNum K) := ⟨mul⟩
instance : Div (JSNum K) := ⟨div⟩

/-- `Math.pow(b, n)` for a natural exponent `n`: `b⁰ = 1` for every `b`,
`NaN` included. -/
def pow (b : JSNum K) (n : Nat) : JSNum K :=
  if n = 0 then fin 1 else
    match b with
    | fin x => fin (x ^ n)
    | nan => nan
    | inf s => inf (s && decide (n % 2 = 1))

/-- `Math.sqrt`, given the square root `sqrt` of the finite non-negative
numbers: `NaN` on negative arguments, on `NaN` and on `-Infinity`. -/
def mathSqrt (sqrt : K → K) : JSNum K → JSNum K
  | fin x => if x < 0 then nan else fin (sqrt x)
  | nan => nan
  | inf s => if s then nan else inf false

end JSNum

/-! ## Flow definitions and the curve generator -/

/-- A position held in a two-element array of numbers. -/
abbrev Pt (K : Type) := JSNum K × JSNum K

/-- An entry of `flowDefinitions`: `start` and `end` are `[longitude,
latitude]` arrays of number literals. -/
structure Flow (K : Type) where
  start : K × K
  end_ : K × K
  weight : Int
  label : String

section Curve

variable {K : Type} [LinearOrderedField K]

open JSNum

/-- The property `flowDefinitions.resource_flows` (lines 33-54). -/
def flowDefinitions.resource_flows : List (Flow K) :=
  [ ⟨(25.5, -10.7), (-122.1, 37.4), 3, "Cobalt"⟩,
    ⟨(-67.49, -20.13), (-122.1, 37.4), 3, "Lithium"⟩,
    ⟨(-69.1, -24.3), (-71.1, 42.4), 2, "Copper"⟩,
    ⟨(121.3742, -2.5736), (116.4, 39.9), 2, "Nickel"⟩,
    ⟨(117.4189, 8.57), (-122.1, 37.4), 2, "Nickel"⟩,
    ⟨(88.2167, 69.3333), (-0.1, 51.5), 2, "Nickel"⟩,
    ⟨(109.9, 41.8), (116.4, 39.9), 5, "Rare Earth Hub"⟩,
    ⟨(109.9, 41.8), (-122.1, 37.4), 5, "Rare Earth Hub"⟩,
    ⟨(109.9, 41.8), (-0.1, 51.5), 5, "Rare Earth Hub"⟩,
    ⟨(98.0, 25.0), (116.4, 39.9), 3, "Rare Earth"⟩ ]

/-- The property `flowDefinitions.labor_flows` (lines 56-69). -/
def flowDefinitions.labor_flows : List (Flow K) :=
  [ ⟨(77.6, 12.97), (-122.1, 37.4), 2, "Data Annotation"⟩,
    ⟨(121.0, 14.6), (-122.1, 37.4), 2, "Content Moderation"⟩,
    ⟨(36.82, -1.29), (-0.1, 51.5), 2, "Content Moderation"⟩,
    ⟨(-46.6, -23.5), (-79.4, 43.7), 1, "BPO Services"⟩,
    ⟨(18.4, -33.9), (-0.1, 51.5), 1, "BPO Services"⟩,
    ⟨(-66.9, 10.5), (-122.1, 37.4), 1, "Platform Work"⟩ ]

/-- The body of the loop of `createBezierCurve` (lines 320-323) at counter
`i`: the point `[lat, lng]` that is pushed. -/
def createBezierCurve.point (start control end_ : Pt K) (numPoints i : Nat) : Pt K :=
  let t : JSNum K := fin (i : K) / fin (numPoints : K)
  let lat := pow (fin 1 - t) 2 * start.1 + fin 2 * (fin 1 - t) * t * control.1
    + pow t 2 * end_.1
  let lng := pow (fin 1 - t) 2 * start.2 + fin 2 * (fin 1 - t) * t * control.2
    + pow t 2 * end_.2
  (lat, lng)

/-- The loop `for (let i = 0; i <= numPoints; i++)` of `createBezierCurve`,
entered at counter `i` with the array `points` built so far. -/
def createBezierCurve.loop (start control end_ : Pt K) (numPoints : Nat)
    (i : Nat) (points : List (Pt K)) : List (Pt K) :=
  if i ≤ numPoints then
    createBezierCurve.loop start control end_ numPoints (i + 1)
      (points ++ [createBezierCurve.point start control end_ numPoints i])
  else points
termination_by numPoints + 1 - i

/-- The function `createBezierCurve` of `map.js` (lines 317-326). -/
def createBezierCurve (start control end_ : Pt K) (numPoints : Nat) : List (Pt K) :=
  createBezierCurve.loop start control end_ numPoints 0 []

namespace createCurvedArrow

/-- Lines 276-277: `[p[1], p[0]]`, a `[longitude, latitude]` array turned
into `[lat, lng]` format. -/
def latLng (p : K × K) : Pt K := (fin p.2, fin p.1)

/-- Line 280: `midLat`. -/
def midLat (start end_ : K × K) : JSNum K :=
  ((latLng start).1 + (latLng end_).1) / fin 2

/-- Line 281: `midLng`. -/
def midLng (start end_ : K × K) : JSNum K :=
  ((latLng start).2 + (latLng end_).2) / fin 2

/-- Line 284: `dx`, the difference of the longitudes. -/
def dx (start end_ : K × K) : JSNum K := (latLng end_).2 - (latLng start).2

/-- Line 285: `dy`, the difference of the latitudes. -/
def dy (start end_ : K × K) : JSNum K := (latLng end_).1 - (latLng start).1

/-- Line 286: `distance = Math.sqrt(dx*dx + dy*dy)`. -/
def distance (sqrt : K → K) (start end_ : K × K) : JSNum K :=
  mathSqrt sqrt (dx start end_ * dx start end_ + dy start end_ * dy start end_)

/-- Line 289: `offsetFactor`. -/
def offsetFactor : JSNum K := fin 0.2

/-- Line 290: `perpX = -dy / distance * distance * offsetFactor`. -/
def perpX (sqrt : K → K) (start end_ : K × K) : JSNum K :=
  (-(dy start end_)) / distance sqrt start end_ * distance sqrt start end_ * offsetFactor

/-- Line 291: `perpY = dx / distance * distance * offsetFactor`. -/
def perpY (sqrt : K → K) (start end_ : K × K) : JSNum K :=
  dx start end_ / distance sqrt start end_ * distance sqrt start end_ * offsetFactor

/-- Line 293: `controlPoint = [midLat + perpY, midLng + perpX]`. -/
def controlPoint (sqrt : K → K) (start end_ : K × K) : Pt K :=
  (midLat start end_ + perpY sqrt start end_, midLng start end_ + perpX sqrt start end_)

/-- Line 296: `curvePoints`, the points handed to `L.polyline`. -/
def curvePoints (sqrt : K → K) (start end_ : K × K) : List (Pt K) :=
  createBezierCurve (latLng start) (controlPoint sqrt start end_) (latLng end_) 50

end createCurvedArrow

/-- A point with finite coordinates, as a two-element array of numbers. -/
def finPt (p : K × K) : Pt K := (fin p.1, fin p.2)

/-- The quadratic bezier formula in the words of the specification,
`B(t) = (1-t)²·P0 + 2(1-t)t·P1 + t²·P2`, for one coordinate. -/
def bezierSpec (p0 p1 p2 t : K) : K :=
  (1 - t) ^ 2 * p0 + 2 * (1 - t) * t * p1 + t ^ 2 * p2

/-- The longitude difference of `end - start`, for `[longitude, latitude]`
pairs: the quantity the claims call dx. -/
def lngDiff (start end_ : K × K) : K := end_.1 - start.1

/-- The latitude difference of `end - start`, for `[longitude, latitude]`
pairs: the quantity the claims call dy. -/
def latDiff (start end_ : K × K) : K := end_.2 - start.2

/-- A square root on `K`: `sqrt x` is the non-negative number whose square
is `x`, for every `x ≥ 0`. -/
def IsSqrt (sqrt : K → K) : Prop :=
  ∀ x, 0 ≤ x → 0 ≤ sqrt x ∧ sqrt x * sqrt x = x

end Curve

/-! ## Layers, the layer-group registry and `loadData` -/

/-- A layer built by the program with the mapping library.  A site marker
(`L.circleMarker`, lines 175-189) is kept with the record it was built from,
its `radius` and its `fillColor`; a flow line (`L.polyline`, lines 298-303)
with its points, `color` and `weight`; an arrow head (`L.circleMarker`,
lines 333-340) with its position and colour. -/
inductive Layer (K : Type) where
  | siteMarker (site : Site K) (radius : K) (fillColor : Option String)
  | polyline (points : List (Pt K)) (color : String) (weight : Int)
  | arrowHead (endPoint : Pt K) (color : String)

/-- The object `layerGroups`: property names with the layers each group
holds, in the order they were added. -/
abbrev LayerGroups (K : Type) := List (String × List (Layer K))

/-- The `weight` option of a layer, for the layers that are polylines. -/
def Layer.lineWeight {K : Type} : Layer K → Option Int
  | Layer.polyline _ _ w => some w
  | _ => none

section Registry

variable {K : Type} [LinearOrderedField K]

/-- The declaration of `layerGroups` (lines 6-13): six empty layer groups. -/
def layerGroups : LayerGroups K :=
  [("mineral_extraction", []), ("digital_labor", []), ("ai_research", []),
   ("data_centers", []), ("resource_flows", []), ("labor_flows", [])]

/-- The property names of a registry. -/
def groupKeys (groups : LayerGroups K) : List String := groups.map Prod.fst

/-- The property read `groups[key]`: `none` is `undefined`. -/
def getGroup : LayerGroups K → String → Option (List (Layer K))
  | [], _ => none
  | (k, ls) :: rest, key => if k = key then some ls else getGroup rest key

/-- The call `groups[key].addLayer(layer)`: `none` when `groups[key]` is
`undefined`, where the call throws a `TypeError` and changes nothing. -/
def addLayer : LayerGroups K → String → Layer K → Option (LayerGroups K)
  | [], _, _ => none
  | (k, ls) :: rest, key, layer =>
      if k = key then some ((k, ls ++ [layer]) :: rest)
      else (addLayer rest key layer).map (fun r => (k, ls) :: r)

/-- The object `colorScheme` (lines 16-22). -/
def colorScheme : List (String × String) :=
  [("mineral_extraction", "#d32f2f"), ("digital_labor", "#1976d2"),
   ("ai_research", "#388e3c"), ("data_centers", "#f57c00"),
   ("environmental_impact", "#795548")]

/-- The marker `createSiteMarker` builds (lines 164-189): radius
`getMarkerSize(site)` and fill colour `colorScheme[category]`. -/
def createSiteMarker.marker (site : Site K) : Layer K :=
  Layer.siteMarker site (getMarkerSize site) (colorScheme.lookup site.category)

/-- The function `createSiteMarker` (lines 163-193): the marker is added to
`layerGroups[category]`; the result is `Except.error` when that lookup is
`undefined` and the call of `addLayer` on it throws.  The region type and
the popup text, which do not reach the registry, are not modelled. -/
def createSiteMarker (site : Site K) (groups : LayerGroups K) :
    Except String (LayerGroups K) :=
  match addLayer groups site.category (createSiteMarker.marker site) with
  | some groups' => Except.ok groups'
  | none => Except.error "TypeError: layerGroups[category] is undefined"

/-- The polyline of `createCurvedArrow` (lines 296-303): the curve points,
the colour and the weight `Math.max(2, weight)`. -/
def createCurvedArrow.polyline (sqrt : K → K) (start end_ : K × K) (color : String)
    (weight : Int) : Layer K :=
  Layer.polyline (createCurvedArrow.curvePoints sqrt start end_) color (max 2 weight)

/-- The function `createArrowHead` (lines 329-341), called with the end and
the start of the flow: a circle marker at the end point.  The angle it
computes is not used. -/
def createArrowHead (endPoint _startPoint : Pt K) (color : String) : Layer K :=
  Layer.arrowHead endPoint color

/-- The function `createCurvedArrow` (lines 275-314).  The argument
`layerGroup` is the property name of the group the caller passes.  The
polyline is added, then the arrow head, which is an object and so truthy;
the popup is not modelled. -/
def createCurvedArrow (sqrt : K → K) (start end_ : K × K) (color : String) (weight : Int)
    (layerGroup : String) (groups : LayerGroups K) : Except String (LayerGroups K) :=
  let polyline := createCurvedArrow.polyline sqrt start end_ color weight
  let arrowHead := createArrowHead (createCurvedArrow.latLng end_)
    (createCurvedArrow.latLng start) color
  match addLayer groups layerGroup polyline with
  | none => Except.error "TypeError: layerGroup is undefined"
  | some g1 =>
    match addLayer g1 layerGroup arrowHead with
    | none => Except.error "TypeError: layerGroup is undefined"
    | some g2 => Except.ok g2

/-- The state a sequence of statements leaves: the registry, and the
exception that ended the sequence early, if one was thrown. -/
structure Run (K : Type) where
  groups : LayerGroups K
  thrown : Option String

/-- The loop `xs.forEach(f)` over a callback that changes the registry or
throws: an exception ends the loop and keeps what was added before it. -/
def forEachRun {α : Type} (f : α → LayerGroups K → Except String (LayerGroups K)) :
    List α → LayerGroups K → Run K
  | [], groups => ⟨groups, none⟩
  | x :: rest, groups =>
      match f x groups with
      | Except.error e => ⟨groups, some e⟩
      | Except.ok groups' => forEachRun f rest groups'

/-- The function `createFlowArrows` (lines 248-272): the resource flows in
the colour of mineral_extraction, then the labor flows in the colour of
digital_labor. -/
def createFlowArrows (sqrt : K → K) (groups : LayerGroups K) : Run K :=
  let r1 := forEachRun
    (fun (flow : Flow K) g =>
      createCurvedArrow sqrt flow.start flow.end_ "#d32f2f" flow.weight "resource_flows" g)
    flowDefinitions.resource_flows groups
  match r1.thrown with
  | some e => ⟨r1.groups, some e⟩
  | none =>
    forEachRun
      (fun (flow : Flow K) g =>
        createCurvedArrow sqrt flow.start flow.end_ "#1976d2" flow.weight "labor_flows" g)
      flowDefinitions.labor_flows r1.groups

/-- The test of line 114:
`site.category !== 'environmental_impact' && site.country !== 'Global'`. -/
def loadData.accepts (site : Site K) : Bool :=
  decide (site.category ≠ "environmental_impact") && decide (site.country ≠ "Global")

/-- The callback of `data.forEach` in `loadData` (lines 113-117). -/
def loadData.eachSite (site : Site K) (groups : LayerGroups K) :
    Except String (LayerGroups K) :=
  if loadData.accepts site then createSiteMarker site groups else Except.ok groups

/-- What a call of `loadData` leaves: the registry, the lines written to the
console, and the exception that leaves the function, if any. -/
structure LoadResult (K : Type) where
  groups : LayerGroups K
  console : List String
  raised : Option String

/-- The `try` block of `loadData` (lines 108-122).  The argument `fetched`
is what `await getAIValueChainData()` yields: the data of the resolved
promise, or the reason of the rejected one, which the `await` throws. -/
def loadData.tryBlock (sqrt : K → K) (fetched : Except String (List (Site K)))
    (groups : LayerGroups K) : Run K × List String :=
  match fetched with
  | Except.error e => (⟨groups, some e⟩, [])
  | Except.ok data =>
    let r1 := forEachRun loadData.eachSite data groups
    match r1.thrown with
    | some e => (⟨r1.groups, some e⟩, [])
    | none =>
      let r2 := createFlowArrows sqrt r1.groups
      match r2.thrown with
      | some e => (⟨r2.groups, some e⟩, [])
      | none => (⟨r2.groups, none⟩, ["Data loaded successfully"])

/-- The function `loadData` (lines 106-126): the `try` block, and the
`catch` clause, which writes the error to the console and raises nothing. -/
def loadData (sqrt : K → K) (fetched : Except String (List (Site K)))
    (groups : LayerGroups K) : LoadResult K :=
  let attempt := loadData.tryBlock sqrt fetched groups
  match attempt.1.thrown with
  | some e =>
    { groups := attempt.1.groups, console := attempt.2 ++ ["Error loading data: " ++ e],
      raised := none }
  | none => { groups := attempt.1.groups, console := attempt.2, raised := none }

/-- The array the promise of `getAIValueChainData` resolves with (lines
390-657): fourteen records. -/
def getAIValueChainData : List (Site K) :=
  [ ⟨"mineral_extraction", some "cobalt", "Democratic Republic of Congo", some 9,
      some 15000, some 60⟩,
    ⟨"mineral_extraction", some "cobalt", "Democratic Republic of Congo", some 10,
      some 40000, some 50⟩,
    ⟨"mineral_extraction", some "lithium", "Bolivia", some 7, some 2000, some 800⟩,
    ⟨"mineral_extraction", some "rare_earth", "China", some 10, some 25000, some 400⟩,
    ⟨"mineral_extraction", some "rare_earth", "Myanmar", some 10, some 50000, some 150⟩,
    ⟨"digital_labor", some "data_annotation", "India", some 1, some 250000, some 350⟩,
    ⟨"digital_labor", some "data_annotation", "Philippines", some 2, some 150000, some 200⟩,
    ⟨"digital_labor", some "content_moderation", "Kenya", some 3, some 40000, some 65⟩,
    ⟨"ai_research", some "development", "United States", some 1, some 500000, some 18000⟩,
    ⟨"ai_research", some "development", "United States", some 1, some 100000, some 16000⟩,
    ⟨"ai_research", some "development", "United Kingdom", some 1, some 150000, some 15000⟩,
    ⟨"ai_research", some "development", "China", some 2, some 300000, some 8000⟩,
    ⟨"data_centers", some "hyperscale", "United States", some 7, some 25000, some 8000⟩,
    ⟨"data_centers", some "tropical", "Singapore", some 7, some 12000, some 6000⟩ ]

/-- The fixed enumeration of categories of the specification. -/
def siteCategories : List String :=
  ["mineral_extraction", "digital_labor", "ai_research", "data_centers",
   "environmental_impact"]

end Registry

/-! ## Theorems: `getMarkerSize` -/

section MarkerSizeTheorems

variable {K : Type} [LinearOrderedField K]

theorem includesSubcategory_eq_true_iff (sub : Option String) :
    includesSubcategory sub = true ↔
      (sub = some "nickel" ∨ sub = some "lithium" ∨ sub = some "rare_earth"
        ∨ sub = some "cobalt") := by
  cases sub with
  | none => simp [includesSubcategory]
  | some s => simp [includesSubcategory, bonusMaterials]

/-- The bonus computed on line 136 is the bonus of the specification. -/
theorem materialBonus_eq_spec (sub : Option String) :
    (if includesSubcategory sub then (3 : K) else 0) = materialBonusSpec sub := by
  unfold materialBonusSpec
  by_cases h : includesSubcategory sub = true
  · rw [if_pos h, if_pos ((includesSubcategory_eq_true_iff sub).1 h)]
  · rw [if_neg h, if_neg (fun h1 => h ((includesSubcategory_eq_true_iff sub).2 h1))]

/-- The `mineral_extraction` case of `getMarkerSize`. -/
theorem getMarkerSize_mineral_eq (site : Site K) (hc : site.category = "mineral_extraction") :
    getMarkerSize site
      = 8 + orElse site.environmental_impact_score 5 * 1.5 + materialBonusSpec site.subcategory := by
  unfold getMarkerSize
  simp only [hc, if_true]
  rw [materialBonus_eq_spec]

/-- C1, as stated, fails when the score is present and zero: for a cobalt
site of category mineral_extraction with environmental_impact_score 0 the
claim gives 8 + 1.5 * 0 + 3 = 11, but `0 || 5` is 5 and `getMarkerSize`
returns 8 + 7.5 + 3 = 18.5. -/
theorem getMarkerSize_mineral_zero_score_counterexample :
    getMarkerSize (K := ℚ) ⟨"mineral_extraction", some "cobalt", "Chile", some 0, none, none⟩
        = 18.5 ∧
      getMarkerSize (K := ℚ) ⟨"mineral_extraction", some "cobalt", "Chile", some 0, none, none⟩
        ≠ 8 + 1.5 * 0 + materialBonusSpec (some "cobalt") := by
  constructor <;>
    norm_num [getMarkerSize, orElse, includesSubcategory, bonusMaterials, materialBonusSpec]

/-- C1 (amended): for every site of category mineral_extraction,
`getMarkerSize` returns 8 + 1.5 * s + b, where s is the site's
environmental_impact_score when that field is present and not zero, s is 5
when the field is absent or zero, and b is 3 when subcategory is one of
nickel, lithium, rare_earth, cobalt and 0 otherwise. -/
theorem getMarkerSize_mineral_extraction (site : Site K)
    (hc : site.category = "mineral_extraction") :
    (∀ s : K, site.environmental_impact_score = some s → s ≠ 0 →
        getMarkerSize site = 8 + 1.5 * s + materialBonusSpec site.subcategory) ∧
    (site.environmental_impact_score = none ∨ site.environmental_impact_score = some 0 →
        getMarkerSize site = 8 + 1.5 * 5 + materialBonusSpec site.subcategory) := by
  rw [getMarkerSize_mineral_eq site hc]
  refine ⟨fun s hs hne => ?_, fun h => ?_⟩
  · rw [hs]; simp only [orElse, if_neg hne]; ring
  · rcases h with h | h <;> rw [h] <;> simp only [orElse, if_true] <;> ring

/-- C1, witness: a mineral_extraction site with score 10 and subcategory
cobalt has marker size 8 + 15 + 3 = 26. -/
theorem getMarkerSize_mineral_extraction_witness :
    getMarkerSize (K := ℚ)
      ⟨"mineral_extraction", some "cobalt", "Democratic Republic of Congo", some 10,
        some 40000, some 50⟩ = 26 := by
  have h := (getMarkerSize_mineral_extraction (K := ℚ)
    ⟨"mineral_extraction", some "cobalt", "Democratic Republic of Congo", some 10,
      some 40000, some 50⟩ rfl).1 10 rfl (by norm_num)
  rw [h]
  norm_num [materialBonusSpec]

/-- C2, as stated, fails when workforce_size is present and zero: the claim
gives 8 + min(0 / 20000, 8) = 8, but `if (site.workforce_size)` is false for
0 and `getMarkerSize` returns 8 + 3 = 11. -/
theorem getMarkerSize_labor_zero_workforce_counterexample :
    getMarkerSize (K := ℚ) ⟨"digital_labor", some "data_annotation", "India", none, some 0, none⟩
        = 11 ∧
      getMarkerSize (K := ℚ) ⟨"digital_labor", some "data_annotation", "India", none, some 0, none⟩
        ≠ 8 + min (0 / 20000) 8 := by
  have h1 : ("digital_labor" : String) ≠ "mineral_extraction" := by decide
  constructor <;> norm_num [getMarkerSize, h1]

/-- C2 (amended): for every site of category digital_labor, `getMarkerSize`
returns 8 + min(workforce_size / 20000, 8) when workforce_size is present
and not zero, and 8 + 3 = 11 when it is absent or zero. -/
theorem getMarkerSize_digital_labor (site : Site K) (hc : site.category = "digital_labor") :
    (∀ w : K, site.workforce_size = some w → w ≠ 0 →
        getMarkerSize site = 8 + min (w / 20000) 8) ∧
    (site.workforce_size = none ∨ site.workforce_size = some 0 →
        getMarkerSize site = 8 + 3 ∧ getMarkerSize site = 11) := by
  have h1 : site.category ≠ "mineral_extraction" := by rw [hc]; decide
  unfold getMarkerSize
  simp only [if_neg h1, if_pos hc]
  refine ⟨fun w hw hne => ?_, fun h => ?_⟩
  · rw [hw]; simp only [ne_eq, hne, not_false_eq_true, if_true]
  · rcases h with h | h <;> rw [h] <;> norm_num

/-- C2, witness: a digital_labor site with workforce_size 250000 has marker
size 8 + min(12.5, 8) = 16. -/
theorem getMarkerSize_digital_labor_witness :
    getMarkerSize (K := ℚ)
      ⟨"digital_labor", some "data_annotation", "India", some 1, some 250000, some 350⟩
        = 16 := by
  have h := (getMarkerSize_digital_labor (K := ℚ)
    ⟨"digital_labor", some "data_annotation", "India", some 1, some 250000, some 350⟩
      rfl).1 250000 rfl (by norm_num)
  rw [h]
  norm_num

/-- C3, as stated, fails when avg_wage_usd_monthly is present and zero: the
claim gives 8 + min(0 / 2000, 10) = 8, but `if (site.avg_wage_usd_monthly)`
is false for 0 and `getMarkerSize` returns 8 + 6 = 14. -/
theorem getMarkerSize_research_zero_wage_counterexample :
    getMarkerSize (K := ℚ) ⟨"ai_research", some "development", "China", none, none, some 0⟩
        = 14 ∧
      getMarkerSize (K := ℚ) ⟨"ai_research", some "development", "China", none, none, some 0⟩
        ≠ 8 + min (0 / 2000) 10 := by
  have h1 : ("ai_research" : String) ≠ "mineral_extraction" := by decide
  have h2 : ("ai_research" : String) ≠ "digital_labor" := by decide
  constructor <;> norm_num [getMarkerSize, h1, h2]

/-- C3 (amended): for every site of category ai_research, `getMarkerSize`
returns 8 + min(avg_wage_usd_monthly / 2000, 10) when avg_wage_usd_monthly
is present and not zero, and 8 + 6 = 14 when it is absent or zero. -/
theorem getMarkerSize_ai_research (site : Site K) (hc : site.category = "ai_research") :
    (∀ w : K, site.avg_wage_usd_monthly = some w → w ≠ 0 →
        getMarkerSize site = 8 + min (w / 2000) 10) ∧
    (site.avg_wage_usd_monthly = none ∨ site.avg_wage_usd_monthly = some 0 →
        getMarkerSize site = 8 + 6 ∧ getMarkerSize site = 14) := by
  have h1 : site.category ≠ "mineral_extraction" := by rw [hc]; decide
  have h2 : site.category ≠ "digital_labor" := by rw [hc]; decide
  unfold getMarkerSize
  simp only [if_neg h1, if_neg h2, if_pos hc]
  refine ⟨fun w hw hne => ?_, fun h => ?_⟩
  · rw [hw]; simp only [ne_eq, hne, not_false_eq_true, if_true]
  · rcases h with h | h <;> rw [h] <;> norm_num

/-- C3, witness: an ai_research site with no wage field has marker size
8 + 6 = 14. -/
theorem getMarkerSize_ai_research_witness :
    getMarkerSize (K := ℚ)
      ⟨"ai_research", some "development", "United States", some 1, some 500000, none⟩
        = 14 :=
  ((getMarkerSize_ai_research (K := ℚ)
    ⟨"ai_research", some "development", "United States", some 1, some 500000, none⟩
      rfl).2 (Or.inl rfl)).2

/-- C4: `getMarkerSize` returns 13 for every site of category data_centers
and 8 for every site whose category is none of mineral_extraction,
digital_labor, ai_research, data_centers, whatever the other fields are. -/
theorem getMarkerSize_data_centers_and_default (site : Site K) :
    (site.category = "data_centers" → getMarkerSize site = 13) ∧
    (site.category ≠ "mineral_extraction" → site.category ≠ "digital_labor" →
      site.category ≠ "ai_research" → site.category ≠ "data_centers" →
        getMarkerSize site = 8) := by
  refine ⟨fun hc => ?_, fun h1 h2 h3 h4 => ?_⟩
  · have h1 : site.category ≠ "mineral_extraction" := by rw [hc]; decide
    have h2 : site.category ≠ "digital_labor" := by rw [hc]; decide
    have h3 : site.category ≠ "ai_research" := by rw [hc]; decide
    unfold getMarkerSize
    simp only [if_neg h1, if_neg h2, if_neg h3, if_pos hc]
    norm_num
  · unfold getMarkerSize
    simp only [if_neg h1, if_neg h2, if_neg h3, if_neg h4]

/-- C4, witness: a data_centers site with every numeric field set has size
13, and an environmental_impact site with every numeric field set has
size 8. -/
theorem getMarkerSize_data_centers_and_default_witness :
    getMarkerSize (K := ℚ)
        ⟨"data_centers", some "cobalt", "Singapore", some 7, some 12000, some 6000⟩ = 13 ∧
      getMarkerSize (K := ℚ)
        ⟨"environmental_impact", some "cobalt", "Global", some 7, some 12000, some 6000⟩ = 8 :=
  ⟨(getMarkerSize_data_centers_and_default (K := ℚ)
      ⟨"data_centers", some "cobalt", "Singapore", some 7, some 12000, some 6000⟩).1 rfl,
   (getMarkerSize_data_centers_and_default (K := ℚ)
      ⟨"environmental_impact", some "cobalt", "Global", some 7, some 12000, some 6000⟩).2
      (by decide) (by decide) (by decide) (by decide)⟩

/-- The value `v || d` is non-negative when `v` is absent or non-negative
and `d` is non-negative. -/
theorem orElse_nonneg (v : Option K) (d : K) (hd : 0 ≤ d) (hv : ∀ x, v = some x → 0 ≤ x) :
    0 ≤ orElse v d := by
  cases v with
  | none => exact hd
  | some x =>
    simp only [orElse]
    split
    · exact hd
    · exact hv x rfl

theorem materialBonusSpec_nonneg (sub : Option String) : (0 : K) ≤ materialBonusSpec sub := by
  unfold materialBonusSpec
  split <;> norm_num

/-- C5: for every site record, of any category, whose numeric attributes
(environmental_impact_score, workforce_size, avg_wage_usd_monthly) are each
either absent or a non-negative number, `getMarkerSize` returns a strictly
positive radius, never smaller than the base size 8. -/
theorem getMarkerSize_ge_baseSize (site : Site K)
    (hscore : ∀ s, site.environmental_impact_score = some s → 0 ≤ s)
    (hwork : ∀ w, site.workforce_size = some w → 0 ≤ w)
    (hwage : ∀ w, site.avg_wage_usd_monthly = some w → 0 ≤ w) :
    0 < getMarkerSize site ∧ 8 ≤ getMarkerSize site := by
  have key : (8 : K) ≤ getMarkerSize site := by
    by_cases h1 : site.category = "mineral_extraction"
    · rw [getMarkerSize_mineral_eq site h1]
      have ha := orElse_nonneg site.environmental_impact_score 5 (by norm_num) hscore
      have hb := materialBonusSpec_nonneg (K := K) site.subcategory
      have hc : (0 : K) ≤ orElse site.environmental_impact_score 5 * 1.5 :=
        mul_nonneg ha (by norm_num)
      linarith
    · unfold getMarkerSize
      simp only [if_neg h1]
      split
      · split
        · next w hw =>
          have h0 : (0 : K) ≤ w / 20000 := div_nonneg (hwork w hw) (by norm_num)
          have hm : (0 : K) ≤ min (w / 20000) 8 := le_min h0 (by norm_num)
          split
          · linarith
          · norm_num
        · norm_num
      · split
        · split
          · next w hw =>
            have h0 : (0 : K) ≤ w / 2000 := div_nonneg (hwage w hw) (by norm_num)
            have hm : (0 : K) ≤ min (w / 2000) 10 := le_min h0 (by norm_num)
            split
            · linarith
            · norm_num
          · norm_num
        · split <;> norm_num
  exact ⟨lt_of_lt_of_le (by norm_num) key, key⟩

/-- C5, witness: the Bangalore record of the dataset (digital_labor, score
1, workforce 250000, wage 350) gets a radius of at least 8. -/
theorem getMarkerSize_ge_baseSize_witness :
    0 < getMarkerSize (K := ℚ)
        ⟨"digital_labor", some "data_annotation", "India", some 1, some 250000, some 350⟩ ∧
      8 ≤ getMarkerSize (K := ℚ)
        ⟨"digital_labor", some "data_annotation", "India", some 1, some 250000, some 350⟩ :=
  getMarkerSize_ge_baseSize (K := ℚ)
    ⟨"digital_labor", some "data_annotation", "India", some 1, some 250000, some 350⟩
    (fun s hs => by cases hs; norm_num) (fun w hw => by cases hw; norm_num)
    (fun w hw => by cases hw; norm_num)

end MarkerSizeTheorems

/-! ## Theorems: arithmetic of `JSNum` -/

namespace JSNum

variable {K : Type} [LinearOrderedField K]

@[simp] theorem fin_add_fin (x y : K) : (fin x + fin y : JSNum K) = fin (x + y) := rfl

@[simp] theorem fin_sub_fin (x y : K) : (fin x - fin y : JSNum K) = fin (x - y) := by
  show add (fin x) (neg (fin y)) = fin (x - y)
  simp [add, neg, sub_eq_add_neg]

@[simp] theorem fin_mul_fin (x y : K) : (fin x * fin y : JSNum K) = fin (x * y) := rfl

@[simp] theorem neg_fin (x : K) : (-(fin x) : JSNum K) = fin (-x) := rfl

theorem fin_div_fin (x y : K) (hy : y ≠ 0) : (fin x / fin y : JSNum K) = fin (x / y) := by
  show div (fin x) (fin y) = fin (x / y)
  simp [div, hy]

@[simp] theorem zero_div_zero : (fin (0 : K) / fin 0 : JSNum K) = nan := by
  show div (fin 0) (fin 0) = nan
  simp [div]

@[simp] theorem nan_add (a : JSNum K) : (nan + a : JSNum K) = nan := by
  show add nan a = nan
  cases a <;> rfl

@[simp] theorem add_nan (a : JSNum K) : (a + nan : JSNum K) = nan := by
  show add a nan = nan
  cases a <;> rfl

@[simp] theorem nan_mul (a : JSNum K) : (nan * a : JSNum K) = nan := by
  show mul nan a = nan
  cases a <;> rfl

@[simp] theorem mul_nan (a : JSNum K) : (a * nan : JSNum K) = nan := by
  show mul a nan = nan
  cases a <;> rfl

theorem pow_fin_two (x : K) : pow (fin x) 2 = fin (x ^ 2) := by
  simp [pow]

end JSNum

/-! ## Theorems: `createBezierCurve` -/

section CurveTheorems

variable {K : Type} [LinearOrderedField K]

open JSNum

/-- The loop entered at counter `i` appends the points of the counters
`i, i+1, ..., numPoints`, in this order, to the array built so far. -/
theorem createBezierCurve.loop_eq (start control end_ : Pt K) (numPoints : Nat) :
    ∀ (k i : Nat) (points : List (Pt K)), numPoints + 1 - i = k →
      createBezierCurve.loop start control end_ numPoints i points
        = points ++ (List.range' i k).map (createBezierCurve.point start control end_ numPoints) := by
  intro k
  induction k with
  | zero =>
    intro i points hk
    rw [createBezierCurve.loop, if_neg (by omega)]
    simp
  | succ k ih =>
    intro i points hk
    rw [createBezierCurve.loop, if_pos (by omega), ih (i + 1) _ (by omega)]
    simp [List.range', List.append_assoc]

/-- The result of `createBezierCurve` is the list of the loop bodies at
the counters `0, ..., numPoints`. -/
theorem createBezierCurve_eq_map (start control end_ : Pt K) (numPoints : Nat) :
    createBezierCurve start control end_ numPoints
      = (List.range (numPoints + 1)).map
          (createBezierCurve.point start control end_ numPoints) := by
  unfold createBezierCurve
  rw [createBezierCurve.loop_eq start control end_ numPoints (numPoints + 1) 0 [] (by omega)]
  simp [List.range_eq_range']

theorem createBezierCurve_length (start control end_ : Pt K) (numPoints : Nat) :
    (createBezierCurve start control end_ numPoints).length = numPoints + 1 := by
  simp [createBezierCurve_eq_map]

theorem createBezierCurve_getElem? (start control end_ : Pt K) (numPoints i : Nat)
    (hi : i ≤ numPoints) :
    (createBezierCurve start control end_ numPoints)[i]?
      = some (createBezierCurve.point start control end_ numPoints i) := by
  rw [createBezierCurve_eq_map, List.getElem?_map, List.getElem?_range (by omega)]
  rfl

/-- With finite points and `numPoints ≥ 1`, the loop body at counter `i`
computes the formula of the specification at `t = i / numPoints`. -/
theorem createBezierCurve.point_fin (s c e : K × K) (numPoints i : Nat) (hN : 1 ≤ numPoints) :
    createBezierCurve.point (finPt s) (finPt c) (finPt e) numPoints i
      = finPt (bezierSpec s.1 c.1 e.1 ((i : K) / (numPoints : K)),
               bezierSpec s.2 c.2 e.2 ((i : K) / (numPoints : K))) := by
  have hN0 : (numPoints : K) ≠ 0 := by
    have : (0 : K) < (numPoints : K) := by exact_mod_cast hN
    exact ne_of_gt this
  simp only [createBezierCurve.point, finPt, fin_div_fin _ _ hN0, fin_sub_fin, pow_fin_two,
    fin_mul_fin, fin_add_fin, bezierSpec]

/-- C6: for every start, control and end point and every sample count
N ≥ 1, `createBezierCurve` returns exactly N+1 points, in the order of
i = 0..N, the i-th being B(t) = (1-t)² * start + 2(1-t)t * control + t² * end
taken coordinate-wise at t = i/N. -/
theorem createBezierCurve_spec (s c e : K × K) (N : Nat) (hN : 1 ≤ N) :
    (createBezierCurve (finPt s) (finPt c) (finPt e) N).length = N + 1 ∧
    ∀ i : Nat, i ≤ N →
      (createBezierCurve (finPt s) (finPt c) (finPt e) N)[i]?
        = some (finPt (bezierSpec s.1 c.1 e.1 ((i : K) / (N : K)),
                       bezierSpec s.2 c.2 e.2 ((i : K) / (N : K)))) := by
  refine ⟨createBezierCurve_length _ _ _ N, fun i hi => ?_⟩
  rw [createBezierCurve_getElem? _ _ _ N i hi, createBezierCurve.point_fin s c e N i hN]

/-- C6, witness: with start (0,0), control (2,5), end (0,10) and N = 2 the
result has 3 points and the middle one is B(1/2) = (1, 5). -/
theorem createBezierCurve_spec_witness :
    (createBezierCurve (K := ℚ) (finPt (0, 0)) (finPt (2, 5)) (finPt (0, 10)) 2).length = 3 ∧
      (createBezierCurve (K := ℚ) (finPt (0, 0)) (finPt (2, 5)) (finPt (0, 10)) 2)[1]?
        = some (finPt (1, 5)) := by
  have h := createBezierCurve_spec (K := ℚ) (0, 0) (2, 5) (0, 10) 2 (by norm_num)
  refine ⟨h.1, ?_⟩
  rw [h.2 1 (by norm_num)]
  norm_num [bezierSpec]

theorem bezierSpec_zero (p0 p1 p2 : K) : bezierSpec p0 p1 p2 0 = p0 := by
  simp [bezierSpec]

theorem bezierSpec_one (p0 p1 p2 : K) : bezierSpec p0 p1 p2 1 = p2 := by
  simp [bezierSpec]

/-- C7: for every start, control and end point and every sample count
N ≥ 1, `createBezierCurve` returns N+1 points, the first of which equals
start and the last of which equals end, whatever the control point is. -/
theorem createBezierCurve_endpoints (s c e : K × K) (N : Nat) (hN : 1 ≤ N) :
    (createBezierCurve (finPt s) (finPt c) (finPt e) N).length = N + 1 ∧
    (createBezierCurve (finPt s) (finPt c) (finPt e) N).head? = some (finPt s) ∧
    (createBezierCurve (finPt s) (finPt c) (finPt e) N).getLast? = some (finPt e) := by
  have hN0 : (N : K) ≠ 0 := by
    have : (0 : K) < (N : K) := by exact_mod_cast hN
    exact ne_of_gt this
  have hlen := createBezierCurve_length (finPt s) (finPt c) (finPt e) N
  refine ⟨hlen, ?_, ?_⟩
  · rw [List.head?_eq_getElem?, createBezierCurve_getElem? _ _ _ N 0 (by omega)]
    rw [createBezierCurve.point_fin s c e N 0 hN]
    simp [bezierSpec_zero]
  · rw [List.getLast?_eq_getElem?, hlen, Nat.add_sub_cancel,
      createBezierCurve_getElem? _ _ _ N N (le_refl N)]
    rw [createBezierCurve.point_fin s c e N N hN, div_self hN0]
    simp [bezierSpec_one]

/-- C7, witness: start (0,0), end (10,0) and N = 2 give 3 points, the first
(0,0) and the last (10,0). -/
theorem createBezierCurve_endpoints_witness :
    (createBezierCurve (K := ℚ) (finPt (0, 0)) (finPt (5, 2)) (finPt (10, 0)) 2).length = 3 ∧
    (createBezierCurve (K := ℚ) (finPt (0, 0)) (finPt (5, 2)) (finPt (10, 0)) 2).head?
      = some (finPt (0, 0)) ∧
    (createBezierCurve (K := ℚ) (finPt (0, 0)) (finPt (5, 2)) (finPt (10, 0)) 2).getLast?
      = some (finPt (10, 0)) :=
  createBezierCurve_endpoints (K := ℚ) (0, 0) (5, 2) (10, 0) 2 (by norm_num)

/-! ## Theorems: `createCurvedArrow` -/

/-- The real square root is a square root in the sense of `IsSqrt`. -/
theorem isSqrt_real : IsSqrt Real.sqrt :=
  fun x hx => ⟨Real.sqrt_nonneg x, Real.mul_self_sqrt hx⟩

theorem createCurvedArrow.dx_eq (start end_ : K × K) :
    createCurvedArrow.dx start end_ = fin (lngDiff start end_) := by
  simp [createCurvedArrow.dx, createCurvedArrow.latLng, lngDiff]

theorem createCurvedArrow.dy_eq (start end_ : K × K) :
    createCurvedArrow.dy start end_ = fin (latDiff start end_) := by
  simp [createCurvedArrow.dy, createCurvedArrow.latLng, latDiff]

theorem createCurvedArrow.midLat_eq (start end_ : K × K) :
    createCurvedArrow.midLat start end_ = fin ((start.2 + end_.2) / 2) := by
  simp [createCurvedArrow.midLat, createCurvedArrow.latLng, fin_div_fin]

theorem createCurvedArrow.midLng_eq (start end_ : K × K) :
    createCurvedArrow.midLng start end_ = fin ((start.1 + end_.1) / 2) := by
  simp [createCurvedArrow.midLng, createCurvedArrow.latLng, fin_div_fin]

/-- The squared length of the segment is non-negative. -/
theorem sqLen_nonneg (start end_ : K × K) :
    0 ≤ lngDiff start end_ * lngDiff start end_ + latDiff start end_ * latDiff start end_ :=
  add_nonneg (mul_self_nonneg _) (mul_self_nonneg _)

/-- The squared length of the segment is positive when start and end differ. -/
theorem sqLen_pos (start end_ : K × K) (hne : start ≠ end_) :
    0 < lngDiff start end_ * lngDiff start end_ + latDiff start end_ * latDiff start end_ := by
  rcases lt_or_eq_of_le (sqLen_nonneg start end_) with h | h
  · exact h
  · exfalso
    apply hne
    have h1 : lngDiff start end_ * lngDiff start end_ = 0 := by
      nlinarith [mul_self_nonneg (lngDiff start end_), mul_self_nonneg (latDiff start end_)]
    have h2 : latDiff start end_ * latDiff start end_ = 0 := by
      nlinarith [mul_self_nonneg (lngDiff start end_), mul_self_nonneg (latDiff start end_)]
    have h3 : end_.1 - start.1 = 0 := mul_self_eq_zero.1 h1
    have h4 : end_.2 - start.2 = 0 := mul_self_eq_zero.1 h2
    exact Prod.ext (sub_eq_zero.1 h3).symm (sub_eq_zero.1 h4).symm

/-- Line 286: `distance` is the finite number `sqrt (dx*dx + dy*dy)`. -/
theorem createCurvedArrow.distance_eq (sqrt : K → K) (start end_ : K × K) :
    createCurvedArrow.distance sqrt start end_
      = fin (sqrt (lngDiff start end_ * lngDiff start end_
          + latDiff start end_ * latDiff start end_)) := by
  simp only [createCurvedArrow.distance, createCurvedArrow.dx_eq, createCurvedArrow.dy_eq,
    fin_mul_fin, fin_add_fin, mathSqrt]
  rw [if_neg (not_lt.2 (sqLen_nonneg start end_))]

/-- With a `NaN` control point every point of the loop is `NaN`. -/
theorem createBezierCurve.point_nan (start end_ : Pt K) (numPoints i : Nat) :
    createBezierCurve.point start (nan, nan) end_ numPoints i = (nan, nan) := by
  simp [createBezierCurve.point]

theorem createBezierCurve_nan (start end_ : Pt K) (numPoints : Nat) :
    createBezierCurve start (nan, nan) end_ numPoints
      = List.replicate (numPoints + 1) (nan, nan) := by
  rw [createBezierCurve_eq_map]
  apply List.ext_getElem
  · simp
  · intro n h1 h2
    simp [createBezierCurve.point_nan]

/-- The degenerate flow: with `sqrt 0 = 0` and start = end, `distance` is 0
and both perpendicular offsets are `0 / 0 * 0 * 0.2 = NaN`. -/
theorem createCurvedArrow.perp_self (sqrt : K → K) (h0 : sqrt 0 = 0) (p : K × K) :
    createCurvedArrow.distance sqrt p p = fin 0 ∧
    createCurvedArrow.perpX sqrt p p = nan ∧ createCurvedArrow.perpY sqrt p p = nan := by
  have hd : createCurvedArrow.distance sqrt p p = fin 0 := by
    rw [createCurvedArrow.distance_eq]
    simp [lngDiff, latDiff, h0]
  refine ⟨hd, ?_, ?_⟩
  · simp [createCurvedArrow.perpX, hd, createCurvedArrow.dy_eq, latDiff]
  · simp [createCurvedArrow.perpY, hd, createCurvedArrow.dx_eq, lngDiff]

/-- The control point of a degenerate flow is `[NaN, NaN]`. -/
theorem createCurvedArrow.controlPoint_self (sqrt : K → K) (h0 : sqrt 0 = 0) (p : K × K) :
    createCurvedArrow.controlPoint sqrt p p = (nan, nan) := by
  obtain ⟨_, hx, hy⟩ := createCurvedArrow.perp_self sqrt h0 p
  simp [createCurvedArrow.controlPoint, hx, hy]

/-- None of the sixteen flows declared in `flowDefinitions` has its start
equal to its end. -/
theorem flowDefinitions_start_ne_end (f : Flow K)
    (hf : f ∈ flowDefinitions.resource_flows ++ flowDefinitions.labor_flows) :
    f.start ≠ f.end_ := by
  simp only [flowDefinitions.resource_flows, flowDefinitions.labor_flows, List.cons_append,
    List.nil_append, List.mem_cons, List.mem_singleton, List.not_mem_nil, or_false] at hf
  rcases hf with h | h | h | h | h | h | h | h | h | h | h | h | h | h | h | h <;>
    subst h <;> simp only [ne_eq, Prod.mk.injEq, not_and] <;> norm_num

/-- C8, as stated, fails: nothing guards the division by `distance`.  For a
flow from Silicon Valley to Silicon Valley, start = end = [-122.1, 37.4],
the 51 points handed to the renderer are all `[NaN, NaN]`, so it is false
that no coordinate is NaN. -/
theorem curvePoints_all_nan_counterexample :
    createCurvedArrow.curvePoints Real.sqrt (-122.1, 37.4) (-122.1, 37.4)
        = List.replicate 51 (JSNum.nan, JSNum.nan) ∧
      ¬ (∀ q ∈ createCurvedArrow.curvePoints Real.sqrt (-122.1, 37.4) (-122.1, 37.4),
          q.1 ≠ JSNum.nan ∧ q.2 ≠ JSNum.nan) := by
  have h : createCurvedArrow.curvePoints Real.sqrt (-122.1, 37.4) (-122.1, 37.4)
      = List.replicate 51 (JSNum.nan, JSNum.nan) := by
    unfold createCurvedArrow.curvePoints
    rw [createCurvedArrow.controlPoint_self Real.sqrt Real.sqrt_zero, createBezierCurve_nan]
  refine ⟨h, fun hall => ?_⟩
  rw [h] at hall
  exact (hall (JSNum.nan, JSNum.nan) (by simp)).1 rfl

/-- C8 (amended): for every flow whose start position equals its end
position, the flow-curve generation of `createCurvedArrow` is not guarded
against the division by zero: `distance` is 0, the control point is
`[NaN, NaN]`, and `createBezierCurve` hands 51 points to the renderer, every
coordinate of which is NaN. -/
theorem createCurvedArrow_degenerate (sqrt : K → K) (h0 : sqrt 0 = 0) (p : K × K) :
    createCurvedArrow.distance sqrt p p = fin 0 ∧
    createCurvedArrow.controlPoint sqrt p p = (nan, nan) ∧
    createCurvedArrow.curvePoints sqrt p p = List.replicate 51 (nan, nan) ∧
    (createCurvedArrow.curvePoints sqrt p p).length = 51 ∧
    ∀ q ∈ createCurvedArrow.curvePoints sqrt p p, q.1 = nan ∧ q.2 = nan := by
  have hc := createCurvedArrow.controlPoint_self sqrt h0 p
  have h : createCurvedArrow.curvePoints sqrt p p = List.replicate 51 (nan, nan) := by
    unfold createCurvedArrow.curvePoints
    rw [hc, createBezierCurve_nan]
  refine ⟨(createCurvedArrow.perp_self sqrt h0 p).1, hc, h, ?_, ?_⟩
  · rw [h, List.length_replicate]
  · intro q hq
    rw [h] at hq
    rw [List.eq_of_mem_replicate hq]
    exact ⟨rfl, rfl⟩

/-- C8, witness: a flow from Kolwezi to Kolwezi, start = end = [25.5, -10.7],
with the real square root. -/
theorem createCurvedArrow_degenerate_witness :
    Real.sqrt 0 = 0 ∧
    createCurvedArrow.distance Real.sqrt (25.5, -10.7) (25.5, -10.7) = JSNum.fin 0 ∧
    createCurvedArrow.controlPoint Real.sqrt (25.5, -10.7) (25.5, -10.7)
      = (JSNum.nan, JSNum.nan) ∧
    createCurvedArrow.curvePoints Real.sqrt (25.5, -10.7) (25.5, -10.7)
      = List.replicate 51 (JSNum.nan, JSNum.nan) ∧
    (createCurvedArrow.curvePoints Real.sqrt (25.5, -10.7) (25.5, -10.7)).length = 51 ∧
    ∀ q ∈ createCurvedArrow.curvePoints Real.sqrt (25.5, -10.7) (25.5, -10.7),
      q.1 = JSNum.nan ∧ q.2 = JSNum.nan :=
  ⟨Real.sqrt_zero, createCurvedArrow_degenerate Real.sqrt Real.sqrt_zero (25.5, -10.7)⟩

/-- A square root of a positive number is not zero. -/
theorem IsSqrt.ne_zero {sqrt : K → K} (hs : IsSqrt sqrt) {x : K} (hx : 0 < x) : sqrt x ≠ 0 := by
  intro h
  have h1 := (hs x (le_of_lt hx)).2
  rw [h, mul_zero] at h1
  exact (ne_of_gt hx) h1.symm

/-- The length of the vector `(c * a, -c * b)` is `c` times the length of
`(a, b)`, for `c ≥ 0`. -/
theorem IsSqrt.sqrt_scale {sqrt : K → K} (hs : IsSqrt sqrt) (c a b : K) (hc : 0 ≤ c) :
    sqrt (c * a * (c * a) + -c * b * (-c * b)) = c * sqrt (a * a + b * b) := by
  have hv : 0 ≤ a * a + b * b := add_nonneg (mul_self_nonneg _) (mul_self_nonneg _)
  have hu : 0 ≤ c * a * (c * a) + -c * b * (-c * b) :=
    add_nonneg (mul_self_nonneg _) (mul_self_nonneg _)
  obtain ⟨h1, h2⟩ := hs _ hu
  obtain ⟨h3, h4⟩ := hs _ hv
  have h5 : 0 ≤ c * sqrt (a * a + b * b) := mul_nonneg hc h3
  apply (mul_self_inj_of_nonneg h1 h5).1
  rw [h2]
  have : c * sqrt (a * a + b * b) * (c * sqrt (a * a + b * b))
      = c * c * (sqrt (a * a + b * b) * sqrt (a * a + b * b)) := by ring
  rw [this, h4]
  ring

/-- Lines 290-291 for a flow with start ≠ end: dividing by `distance` and
multiplying by it again cancels. -/
theorem createCurvedArrow.perp_eq (sqrt : K → K) (hs : IsSqrt sqrt) (start end_ : K × K)
    (hne : start ≠ end_) :
    createCurvedArrow.perpX sqrt start end_ = fin (-(latDiff start end_) * 0.2) ∧
    createCurvedArrow.perpY sqrt start end_ = fin (lngDiff start end_ * 0.2) := by
  have hd := hs.ne_zero (sqLen_pos start end_ hne)
  constructor
  · simp only [createCurvedArrow.perpX, createCurvedArrow.distance_eq, createCurvedArrow.dy_eq,
      createCurvedArrow.offsetFactor, neg_fin, fin_div_fin _ _ hd, fin_mul_fin]
    rw [div_mul_cancel₀ _ hd]
  · simp only [createCurvedArrow.perpY, createCurvedArrow.distance_eq, createCurvedArrow.dx_eq,
      createCurvedArrow.offsetFactor, fin_div_fin _ _ hd, fin_mul_fin]
    rw [div_mul_cancel₀ _ hd]

/-- Line 293 for a flow with start ≠ end: the control point is finite. -/
theorem createCurvedArrow.controlPoint_eq (sqrt : K → K) (hs : IsSqrt sqrt)
    (start end_ : K × K) (hne : start ≠ end_) :
    createCurvedArrow.controlPoint sqrt start end_
      = finPt ((start.2 + end_.2) / 2 + lngDiff start end_ * 0.2,
               (start.1 + end_.1) / 2 + -(latDiff start end_) * 0.2) := by
  obtain ⟨hx, hy⟩ := createCurvedArrow.perp_eq sqrt hs start end_ hne
  simp only [createCurvedArrow.controlPoint, hx, hy, createCurvedArrow.midLat_eq,
    createCurvedArrow.midLng_eq, fin_add_fin, finPt]

/-- Sample 25 of the 50 of `curvePoints`, the point at t = 1/2, for a flow
with start ≠ end: the midpoint of the segment displaced by half the offset
of the control point. -/
theorem createCurvedArrow.apex_eq (sqrt : K → K) (hs : IsSqrt sqrt) (start end_ : K × K)
    (hne : start ≠ end_) :
    (createCurvedArrow.curvePoints sqrt start end_)[25]?
      = some (finPt ((start.2 + end_.2) / 2 + 0.1 * lngDiff start end_,
                     (start.1 + end_.1) / 2 + -0.1 * latDiff start end_)) := by
  unfold createCurvedArrow.curvePoints
  rw [createBezierCurve_getElem? _ _ _ 50 25 (by norm_num),
    createCurvedArrow.controlPoint_eq sqrt hs start end_ hne]
  have hl : ∀ p : K × K, createCurvedArrow.latLng p = finPt (p.2, p.1) := fun _ => rfl
  rw [hl, hl, createBezierCurve.point_fin _ _ _ 50 25 (by norm_num)]
  simp only [bezierSpec]
  congr 3
  · norm_num
    ring
  · norm_num
    ring

end CurveTheorems

/-! ## Theorems: the layer-group registry -/

section RegistryTheorems

variable {K : Type}

/-- A property name of the registry has a layer group. -/
theorem getGroup_of_mem_keys (groups : LayerGroups K) (key : String)
    (h : key ∈ groupKeys groups) : ∃ old, getGroup groups key = some old := by
  induction groups with
  | nil => simp [groupKeys] at h
  | cons head rest ih =>
    obtain ⟨k, ls⟩ := head
    by_cases hk : k = key
    · exact ⟨ls, by simp [getGroup, hk]⟩
    · have h1 : key ∈ groupKeys rest := by
        simp only [groupKeys, List.map_cons, List.mem_cons] at h
        rcases h with h | h
        · exact absurd h.symm hk
        · exact h
      obtain ⟨old, hold⟩ := ih h1
      exact ⟨old, by simp [getGroup, hk, hold]⟩

/-- Adding a layer to a group that exists succeeds: the layer is appended
to that group, the other groups and the property names are unchanged. -/
theorem addLayer_of_getGroup (groups : LayerGroups K) (key : String) (layer : Layer K)
    (old : List (Layer K)) (h : getGroup groups key = some old) :
    ∃ groups', addLayer groups key layer = some groups' ∧
      getGroup groups' key = some (old ++ [layer]) ∧
      groupKeys groups' = groupKeys groups ∧
      ∀ k, k ≠ key → getGroup groups' k = getGroup groups k := by
  induction groups with
  | nil => simp [getGroup] at h
  | cons head rest ih =>
    obtain ⟨k, ls⟩ := head
    by_cases hk : k = key
    · simp only [getGroup, if_pos hk, Option.some.injEq] at h
      refine ⟨(k, ls ++ [layer]) :: rest, by simp [addLayer, hk], ?_, ?_, ?_⟩
      · simp [getGroup, hk, h]
      · simp [groupKeys]
      · intro k2 hk2
        have : ¬ k = k2 := fun e => hk2 (e ▸ hk)
        simp [getGroup, this]
    · simp only [getGroup, if_neg hk] at h
      obtain ⟨r, hr1, hr2, hr3, hr4⟩ := ih h
      refine ⟨(k, ls) :: r, by simp [addLayer, hk, hr1], ?_, ?_, ?_⟩
      · simp [getGroup, hk, hr2]
      · simp only [groupKeys, List.map_cons] at hr3 ⊢
        rw [hr3]
      · intro k2 hk2
        by_cases hkk : k = k2
        · simp [getGroup, hkk]
        · simp [getGroup, hkk, hr4 k2 hk2]

/-- The four categories the filter of `loadData` leaves of the enumeration
are property names of the declared registry. -/
theorem category_mem_keys (site : Site K) (hcat : site.category ∈ siteCategories)
    (hacc : loadData.accepts site = true) :
    site.category ∈ groupKeys (layerGroups : LayerGroups K) := by
  have hne : site.category ≠ "environmental_impact" := by
    simp only [loadData.accepts, Bool.and_eq_true, decide_eq_true_eq] at hacc
    exact hacc.1
  simp only [siteCategories, List.mem_cons, List.mem_singleton, List.not_mem_nil,
    or_false] at hcat
  simp only [groupKeys, layerGroups, List.map_cons, List.map_nil, List.mem_cons,
    List.mem_singleton, List.not_mem_nil, or_false]
  rcases hcat with h | h | h | h | h
  · exact Or.inl h
  · exact Or.inr (Or.inl h)
  · exact Or.inr (Or.inr (Or.inl h))
  · exact Or.inr (Or.inr (Or.inr (Or.inl h)))
  · exact absurd h hne

end RegistryTheorems

/-! ## Theorems: `createCurvedArrow`, `loadData` and `createSiteMarker` -/

section LoadTheorems

variable {K : Type} [LinearOrderedField K]

/-- The function `createCurvedArrow` on a group that exists: the polyline
and then the arrow head are appended to that group. -/
theorem createCurvedArrow_ok (sqrt : K → K) (start end_ : K × K) (color : String)
    (weight : Int) (layerGroup : String) (groups : LayerGroups K) (old : List (Layer K))
    (h : getGroup groups layerGroup = some old) :
    ∃ groups', createCurvedArrow sqrt start end_ color weight layerGroup groups
        = Except.ok groups' ∧
      getGroup groups' layerGroup
        = some (old ++ [createCurvedArrow.polyline sqrt start end_ color weight,
            createArrowHead (createCurvedArrow.latLng end_) (createCurvedArrow.latLng start)
              color]) ∧
      groupKeys groups' = groupKeys groups := by
  obtain ⟨g1, h1, h2, h3, _⟩ := addLayer_of_getGroup groups layerGroup
    (createCurvedArrow.polyline sqrt start end_ color weight) old h
  obtain ⟨g2, h4, h5, h6, _⟩ := addLayer_of_getGroup g1 layerGroup
    (createArrowHead (createCurvedArrow.latLng end_) (createCurvedArrow.latLng start) color)
    _ h2
  refine ⟨g2, ?_, ?_, ?_⟩
  · simp only [createCurvedArrow, h1, h4]
  · rw [h5, List.append_assoc]
    rfl
  · rw [h6, h3]

/-- C11: for every integer flow weight w, the line thickness
`createCurvedArrow` gives the polyline is max(2, w): it is never below 2,
it equals w whenever w ≥ 2 and it is 2 whenever w ≤ 2; the polyline with
this thickness is the layer the function adds to the group it is given. -/
theorem createCurvedArrow_lineWeight (sqrt : K → K) (start end_ : K × K) (color : String)
    (w : Int) :
    (createCurvedArrow.polyline sqrt start end_ color w).lineWeight = some (max 2 w) ∧
    (∀ t, (createCurvedArrow.polyline sqrt start end_ color w).lineWeight = some t → 2 ≤ t) ∧
    (2 ≤ w → (createCurvedArrow.polyline sqrt start end_ color w).lineWeight = some w) ∧
    (w ≤ 2 → (createCurvedArrow.polyline sqrt start end_ color w).lineWeight = some 2) ∧
    (∀ (layerGroup : String) (groups : LayerGroups K) (old : List (Layer K)),
      getGroup groups layerGroup = some old →
      ∃ groups' arrowHead,
        createCurvedArrow sqrt start end_ color w layerGroup groups = Except.ok groups' ∧
        getGroup groups' layerGroup
          = some (old ++ [createCurvedArrow.polyline sqrt start end_ color w, arrowHead])) := by
  have h0 : (createCurvedArrow.polyline sqrt start end_ color w).lineWeight
      = some (max 2 w) := rfl
  refine ⟨h0, ?_, ?_, ?_, ?_⟩
  · intro t ht
    rw [h0, Option.some.injEq] at ht
    rw [← ht]
    exact le_max_left 2 w
  · intro hw
    rw [h0, max_eq_right hw]
  · intro hw
    rw [h0, max_eq_left hw]
  · intro layerGroup groups old hold
    obtain ⟨g, hg1, hg2, _⟩ :=
      createCurvedArrow_ok sqrt start end_ color w layerGroup groups old hold
    exact ⟨g, _, hg1, hg2⟩

/-- C11, witness: the labor flow São Paulo to Toronto, declared with weight
1, is drawn with thickness 2, and the resource flow Bayan Obo to Beijing,
declared with weight 5, with thickness 5. -/
theorem createCurvedArrow_lineWeight_witness :
    (createCurvedArrow.polyline Real.sqrt (-46.6, -23.5) (-79.4, 43.7) "#1976d2" 1).lineWeight
        = some 2 ∧
      (createCurvedArrow.polyline Real.sqrt (109.9, 41.8) (116.4, 39.9) "#d32f2f" 5).lineWeight
        = some 5 :=
  ⟨(createCurvedArrow_lineWeight Real.sqrt (-46.6, -23.5) (-79.4, 43.7) "#1976d2" 1).2.2.2.1
      (by decide),
   (createCurvedArrow_lineWeight Real.sqrt (109.9, 41.8) (116.4, 39.9) "#d32f2f" 5).2.2.1
      (by decide)⟩

/-- The thicknesses of the polylines `createFlowArrows` draws from the
declared registry, in the order of `flowDefinitions`: the three labor flows
declared with weight 1 are drawn with thickness 2, every other flow with its
declared weight. -/
theorem createFlowArrows_lineWeights (sqrt : K → K) :
    (createFlowArrows sqrt (layerGroups : LayerGroups K)).thrown = none ∧
    (getGroup (createFlowArrows sqrt (layerGroups : LayerGroups K)).groups
        "resource_flows").map (List.filterMap Layer.lineWeight)
      = some [3, 3, 2, 2, 2, 2, 5, 5, 5, 3] ∧
    (getGroup (createFlowArrows sqrt (layerGroups : LayerGroups K)).groups
        "labor_flows").map (List.filterMap Layer.lineWeight)
      = some [2, 2, 2, 2, 2, 2] ∧
    (flowDefinitions.labor_flows : List (Flow K)).map Flow.weight = [2, 2, 2, 1, 1, 1] := by
  refine ⟨?_, ?_, ?_, rfl⟩ <;>
    simp +decide [createFlowArrows, forEachRun, createCurvedArrow, addLayer,
      flowDefinitions.resource_flows, flowDefinitions.labor_flows, layerGroups, getGroup,
      Layer.lineWeight, createCurvedArrow.polyline, createArrowHead]

/-- C12: if obtaining the site data fails, `loadData` catches the failure
and completes without raising, and rendering is aborted: the registry of
layer groups is left exactly as it was before the call, so no site marker
and no flow arrow is added; the only effect is the error written to the
console.  Whatever the data loader yields, `loadData` raises nothing. -/
theorem loadData_rejected (sqrt : K → K) (reason : String) (groups : LayerGroups K) :
    (loadData sqrt (Except.error reason) groups).raised = none ∧
    (loadData sqrt (Except.error reason) groups).groups = groups ∧
    (∀ key, getGroup (loadData sqrt (Except.error reason) groups).groups key
      = getGroup groups key) ∧
    (loadData sqrt (Except.error reason) groups).console
      = ["Error loading data: " ++ reason] ∧
    (∀ fetched, (loadData sqrt fetched groups).raised = none) := by
  refine ⟨rfl, rfl, fun _ => rfl, rfl, fun fetched => ?_⟩
  unfold loadData
  simp only
  split <;> rfl

/-- One step of the loop of `loadData` on a registry with the declared
property names, for a record of an enumerated category that the filter
accepts: the lookup `layerGroups[category]` is defined and the marker is
appended to that group. -/
theorem loadData.eachSite_ok (site : Site K) (groups : LayerGroups K)
    (hkeys : groupKeys groups = groupKeys (layerGroups : LayerGroups K))
    (hcat : site.category ∈ siteCategories) (hacc : loadData.accepts site = true) :
    ∃ old groups', getGroup groups site.category = some old ∧
      createSiteMarker site groups = Except.ok groups' ∧
      loadData.eachSite site groups = Except.ok groups' ∧
      getGroup groups' site.category = some (old ++ [createSiteMarker.marker site]) ∧
      groupKeys groups' = groupKeys (layerGroups : LayerGroups K) ∧
      ∀ k, k ≠ site.category → getGroup groups' k = getGroup groups k := by
  have hmem : site.category ∈ groupKeys groups := by
    rw [hkeys]
    exact category_mem_keys site hcat hacc
  obtain ⟨old, hold⟩ := getGroup_of_mem_keys groups site.category hmem
  obtain ⟨g, hg1, hg2, hg3, hg4⟩ :=
    addLayer_of_getGroup groups site.category (createSiteMarker.marker site) old hold
  have hcm : createSiteMarker site groups = Except.ok g := by
    simp only [createSiteMarker, hg1]
  refine ⟨old, g, hold, hcm, ?_, hg2, by rw [hg3, hkeys], hg4⟩
  simp only [loadData.eachSite, hacc, if_true, hcm]

/-- The loop of `loadData` over records of enumerated categories, on a
registry with the declared property names, throws nothing and keeps the
property names. -/
theorem forEachRun_eachSite_ok (data : List (Site K)) :
    ∀ groups : LayerGroups K,
      groupKeys groups = groupKeys (layerGroups : LayerGroups K) →
      (∀ d ∈ data, d.category ∈ siteCategories) →
      (forEachRun loadData.eachSite data groups).thrown = none ∧
      groupKeys (forEachRun loadData.eachSite data groups).groups
        = groupKeys (layerGroups : LayerGroups K) := by
  induction data with
  | nil => intro groups hkeys _; exact ⟨rfl, hkeys⟩
  | cons site rest ih =>
    intro groups hkeys hall
    have hrest : ∀ d ∈ rest, d.category ∈ siteCategories :=
      fun d hd => hall d (List.mem_cons_of_mem _ hd)
    by_cases hacc : loadData.accepts site = true
    · obtain ⟨old, g, _, _, h3, _, h5, _⟩ :=
        loadData.eachSite_ok site groups hkeys (hall site (List.mem_cons_self _ _)) hacc
      simp only [forEachRun, h3]
      exact ih g h5 hrest
    · have h3 : loadData.eachSite site groups = Except.ok groups := by
        simp only [loadData.eachSite, hacc, Bool.false_eq_true, if_false]
      simp only [forEachRun, h3]
      exact ih groups hkeys hrest

/-- Every record of the embedded dataset has a category of the enumeration
and passes the filter of `loadData`. -/
theorem getAIValueChainData_accepted (d : Site K) (hd : d ∈ (getAIValueChainData : List (Site K))) :
    d.category ∈ siteCategories ∧ loadData.accepts d = true := by
  simp only [getAIValueChainData, List.mem_cons, List.mem_singleton, List.not_mem_nil,
    or_false] at hd
  rcases hd with h | h | h | h | h | h | h | h | h | h | h | h | h | h <;>
    subst h <;> exact ⟨by simp [siteCategories], by rfl⟩

/-- The loop of `loadData` over the embedded dataset, from the declared
registry: nothing is thrown and each of the fourteen markers is in the group
of its category, in the order of the dataset. -/
theorem forEachRun_getAIValueChainData :
    forEachRun loadData.eachSite (getAIValueChainData : List (Site K)) layerGroups
      = ⟨[("mineral_extraction",
            ((getAIValueChainData : List (Site K)).filter
              (fun d => d.category = "mineral_extraction")).map createSiteMarker.marker),
          ("digital_labor",
            ((getAIValueChainData : List (Site K)).filter
              (fun d => d.category = "digital_labor")).map createSiteMarker.marker),
          ("ai_research",
            ((getAIValueChainData : List (Site K)).filter
              (fun d => d.category = "ai_research")).map createSiteMarker.marker),
          ("data_centers",
            ((getAIValueChainData : List (Site K)).filter
              (fun d => d.category = "data_centers")).map createSiteMarker.marker),
          ("resource_flows", []), ("labor_flows", [])], none⟩ := by
  rfl

/-- C13: for every site record whose category is one of the five of the
fixed enumeration and that the filter of `loadData` accepts, the declared
`layerGroups` holds a layer group keyed by the category of the site, and on
every registry with the declared keys the lookup `layerGroups[category]` in
`createSiteMarker` is defined and the marker is added to that group, the
keys staying as declared; every record of the embedded dataset is such a
record, and the loop of `loadData` over the dataset throws nothing. -/
theorem createSiteMarker_group_defined :
    (∀ (site : Site K) (groups : LayerGroups K),
      groupKeys groups = groupKeys (layerGroups : LayerGroups K) →
      site.category ∈ siteCategories → loadData.accepts site = true →
      getGroup (layerGroups : LayerGroups K) site.category = some [] ∧
      ∃ old groups', getGroup groups site.category = some old ∧
        createSiteMarker site groups = Except.ok groups' ∧
        getGroup groups' site.category = some (old ++ [createSiteMarker.marker site]) ∧
        groupKeys groups' = groupKeys (layerGroups : LayerGroups K)) ∧
    (∀ d ∈ (getAIValueChainData : List (Site K)),
      d.category ∈ siteCategories ∧ loadData.accepts d = true) ∧
    (forEachRun loadData.eachSite (getAIValueChainData : List (Site K)) layerGroups).thrown
      = none := by
  refine ⟨fun site groups hkeys hcat hacc => ⟨?_, ?_⟩,
    fun d hd => getAIValueChainData_accepted d hd, ?_⟩
  · have hne : site.category ≠ "environmental_impact" := by
      simp only [loadData.accepts, Bool.and_eq_true, decide_eq_true_eq] at hacc
      exact hacc.1
    simp only [siteCategories, List.mem_cons, List.mem_singleton, List.not_mem_nil,
      or_false] at hcat
    rcases hcat with h | h | h | h | h
    · rw [h]; rfl
    · rw [h]; rfl
    · rw [h]; rfl
    · rw [h]; rfl
    · exact absurd h hne
  · obtain ⟨old, g, h1, h2, _, h4, h5, _⟩ := loadData.eachSite_ok site groups hkeys hcat hacc
    exact ⟨old, g, h1, h2, h4, h5⟩
  · exact (forEachRun_eachSite_ok (getAIValueChainData : List (Site K)) layerGroups rfl
      (fun d hd => (getAIValueChainData_accepted d hd).1)).1

/-- C13, witness: the Kolwezi record of the dataset, on the declared
registry: the group `mineral_extraction` is defined and receives the
marker. -/
theorem createSiteMarker_group_defined_witness :
    groupKeys (layerGroups : LayerGroups ℚ) = groupKeys (layerGroups : LayerGroups ℚ) ∧
    (⟨"mineral_extraction", some "cobalt", "Democratic Republic of Congo", some 10,
        some 40000, some 50⟩ : Site ℚ).category ∈ siteCategories ∧
    loadData.accepts (⟨"mineral_extraction", some "cobalt", "Democratic Republic of Congo",
        some 10, some 40000, some 50⟩ : Site ℚ) = true ∧
    getGroup (layerGroups : LayerGroups ℚ) "mineral_extraction" = some [] ∧
    ∃ groups', createSiteMarker (⟨"mineral_extraction", some "cobalt",
        "Democratic Republic of Congo", some 10, some 40000, some 50⟩ : Site ℚ) layerGroups
          = Except.ok groups' ∧
      getGroup groups' "mineral_extraction"
        = some [createSiteMarker.marker (⟨"mineral_extraction", some "cobalt",
            "Democratic Republic of Congo", some 10, some 40000, some 50⟩ : Site ℚ)] := by
  have hcat : (⟨"mineral_extraction", some "cobalt", "Democratic Republic of Congo", some 10,
      some 40000, some 50⟩ : Site ℚ).category ∈ siteCategories := by
    simp [siteCategories]
  have h := (createSiteMarker_group_defined (K := ℚ)).1
    ⟨"mineral_extraction", some "cobalt", "Democratic Republic of Congo", some 10,
      some 40000, some 50⟩ layerGroups rfl hcat rfl
  obtain ⟨h0, old, g, h1, h2, h3, _⟩ := h
  refine ⟨rfl, hcat, rfl, h0, g, h2, ?_⟩
  have hold : old = [] := by
    rw [h0] at h1
    exact (Option.some.inj h1).symm
  rw [h3, hold]
  rfl

end LoadTheorems

end AIMap
